import Mathlib

/-
  Verification development for the ChainMonitor repository.

  The Python backend (src/backend/monitor.py, src/backend/api_server.py,
  src/backend/whale_cex.py) is shallowly embedded below: pure functions
  become Lean functions, Python ints become Int/Nat (float arithmetic over
  the decimal threshold constants is modelled exactly in Rat), fallible
  code returns Except, and external effects (RPC node reads, Etherscan
  responses, SQLite table contents, the markets.json file state) become
  explicit parameters.

  Web3.keccak, the library hash both components use for market ids, is
  modelled bit-precisely: Keccak-256 (rate 1088, original 0x01 padding)
  over byte lists, with 64-bit lanes as Nat values below 2^64 and all
  bitwise operations written as fuel-64 binary recursions so that every
  definition evaluates inside the kernel.
-/

set_option maxRecDepth 10000

namespace ChainMonitor

/- ==== Keccak-256 (the Web3.keccak library function) ==== -/

/-- Bitwise xor of the low `fuel` bits of two naturals, least significant bit first. -/
def natXorAux : Nat → Nat → Nat → Nat
  | 0, _, _ => 0
  | fuel+1, a, b => (if a % 2 = b % 2 then 0 else 1) + 2 * natXorAux fuel (a / 2) (b / 2)

/-- Bitwise (not a) and b over the low `fuel` bits of two naturals. -/
def natAndNotAux : Nat → Nat → Nat → Nat
  | 0, _, _ => 0
  | fuel+1, a, b => (if a % 2 = 0 ∧ b % 2 = 1 then 1 else 0) + 2 * natAndNotAux fuel (a / 2) (b / 2)

/-- 64-bit xor. -/
def xor64 (a b : Nat) : Nat := natXorAux 64 a b

/-- 64-bit (not a) and b, as used by the Keccak chi step. -/
def andNot64 (a b : Nat) : Nat := natAndNotAux 64 a b

/-- Rotate a 64-bit lane left by k bits. -/
def rotl64 (k n : Nat) : Nat :=
  (n * 2 ^ (k % 64)) % 2 ^ 64 + n % 2 ^ 64 / 2 ^ (64 - k % 64)

/-- One round of Keccak-f[1600]: theta, rho, pi, chi, iota with round
constant rc. State lanes are listed in index order i = x + 5*y; the lane
bindings keep every intermediate shared so the term evaluates in linear
time. -/
def keccakRound (rc : Nat) (st : List Nat) : List Nat :=
  match st with
  | a0 :: a1 :: a2 :: a3 :: a4 :: a5 :: a6 :: a7 :: a8 :: a9 ::
    a10 :: a11 :: a12 :: a13 :: a14 :: a15 :: a16 :: a17 :: a18 :: a19 ::
    a20 :: a21 :: a22 :: a23 :: a24 :: _ =>
    let c0 := xor64 (xor64 (xor64 (xor64 a0 a5) a10) a15) a20
    let c1 := xor64 (xor64 (xor64 (xor64 a1 a6) a11) a16) a21
    let c2 := xor64 (xor64 (xor64 (xor64 a2 a7) a12) a17) a22
    let c3 := xor64 (xor64 (xor64 (xor64 a3 a8) a13) a18) a23
    let c4 := xor64 (xor64 (xor64 (xor64 a4 a9) a14) a19) a24
    let d0 := xor64 c4 (rotl64 1 c1)
    let d1 := xor64 c0 (rotl64 1 c2)
    let d2 := xor64 c1 (rotl64 1 c3)
    let d3 := xor64 c2 (rotl64 1 c4)
    let d4 := xor64 c3 (rotl64 1 c0)
    let t0 := xor64 a0 d0
    let t1 := xor64 a1 d1
    let t2 := xor64 a2 d2
    let t3 := xor64 a3 d3
    let t4 := xor64 a4 d4
    let t5 := xor64 a5 d0
    let t6 := xor64 a6 d1
    let t7 := xor64 a7 d2
    let t8 := xor64 a8 d3
    let t9 := xor64 a9 d4
    let t10 := xor64 a10 d0
    let t11 := xor64 a11 d1
    let t12 := xor64 a12 d2
    let t13 := xor64 a13 d3
    let t14 := xor64 a14 d4
    let t15 := xor64 a15 d0
    let t16 := xor64 a16 d1
    let t17 := xor64 a17 d2
    let t18 := xor64 a18 d3
    let t19 := xor64 a19 d4
    let t20 := xor64 a20 d0
    let t21 := xor64 a21 d1
    let t22 := xor64 a22 d2
    let t23 := xor64 a23 d3
    let t24 := xor64 a24 d4
    let b0 := t0
    let b1 := rotl64 44 t6
    let b2 := rotl64 43 t12
    let b3 := rotl64 21 t18
    let b4 := rotl64 14 t24
    let b5 := rotl64 28 t3
    let b6 := rotl64 20 t9
    let b7 := rotl64 3 t10
    let b8 := rotl64 45 t16
    let b9 := rotl64 61 t22
    let b10 := rotl64 1 t1
    let b11 := rotl64 6 t7
    let b12 := rotl64 25 t13
    let b13 := rotl64 8 t19
    let b14 := rotl64 18 t20
    let b15 := rotl64 27 t4
    let b16 := rotl64 36 t5
    let b17 := rotl64 10 t11
    let b18 := rotl64 15 t17
    let b19 := rotl64 56 t23
    let b20 := rotl64 62 t2
    let b21 := rotl64 55 t8
    let b22 := rotl64 39 t14
    let b23 := rotl64 41 t15
    let b24 := rotl64 2 t21
    [xor64 (xor64 b0 (andNot64 b1 b2)) rc,
     xor64 b1 (andNot64 b2 b3),
     xor64 b2 (andNot64 b3 b4),
     xor64 b3 (andNot64 b4 b0),
     xor64 b4 (andNot64 b0 b1),
     xor64 b5 (andNot64 b6 b7),
     xor64 b6 (andNot64 b7 b8),
     xor64 b7 (andNot64 b8 b9),
     xor64 b8 (andNot64 b9 b5),
     xor64 b9 (andNot64 b5 b6),
     xor64 b10 (andNot64 b11 b12),
     xor64 b11 (andNot64 b12 b13),
     xor64 b12 (andNot64 b13 b14),
     xor64 b13 (andNot64 b14 b10),
     xor64 b14 (andNot64 b10 b11),
     xor64 b15 (andNot64 b16 b17),
     xor64 b16 (andNot64 b17 b18),
     xor64 b17 (andNot64 b18 b19),
     xor64 b18 (andNot64 b19 b15),
     xor64 b19 (andNot64 b15 b16),
     xor64 b20 (andNot64 b21 b22),
     xor64 b21 (andNot64 b22 b23),
     xor64 b22 (andNot64 b23 b24),
     xor64 b23 (andNot64 b24 b20),
     xor64 b24 (andNot64 b20 b21)]
  | _ => st

/-- The 24 Keccak-f[1600] round constants. -/
def roundConstants : List Nat :=
  [1, 32898,
   9223372036854808714, 9223372039002292224,
   32907, 2147483649,
   9223372039002292353, 9223372036854808585,
   138, 136,
   2147516425, 2147483658,
   2147516555, 9223372036854775947,
   9223372036854808713, 9223372036854808579,
   9223372036854808578, 9223372036854775936,
   32778, 9223372039002259466,
   9223372039002292353, 9223372036854808704,
   2147483649, 9223372039002292232]

/-- The full 24-round Keccak-f[1600] permutation. -/
def keccakF (st : List Nat) : List Nat :=
  roundConstants.foldl (fun s rc => keccakRound rc s) st

/-- Assemble a 64-bit lane from up to 8 bytes, little-endian. -/
def bytesToLane (bs : List Nat) : Nat := bs.foldr (fun b acc => b % 256 + 256 * acc) 0

/-- Serialize a 64-bit lane to 8 bytes, little-endian. -/
def laneToBytes (n : Nat) : List Nat :=
  [n % 256, n / 256 % 256, n / 256 ^ 2 % 256, n / 256 ^ 3 % 256,
   n / 256 ^ 4 % 256, n / 256 ^ 5 % 256, n / 256 ^ 6 % 256, n / 256 ^ 7 % 256]

/-- Lane i of a state (0 when out of range). -/
def getLane (st : List Nat) (i : Nat) : Nat := st.getD i 0

/-- Absorb one 136-byte block into the state (xor into the first 17 lanes)
and apply the permutation. -/
def absorbBlock (st : List Nat) (block : List Nat) : List Nat :=
  match st with
  | a0 :: a1 :: a2 :: a3 :: a4 :: a5 :: a6 :: a7 :: a8 :: a9 ::
    a10 :: a11 :: a12 :: a13 :: a14 :: a15 :: a16 :: rest =>
    keccakF
      ([xor64 a0 (bytesToLane (block.take 8)),
        xor64 a1 (bytesToLane ((block.drop 8).take 8)),
        xor64 a2 (bytesToLane ((block.drop 16).take 8)),
        xor64 a3 (bytesToLane ((block.drop 24).take 8)),
        xor64 a4 (bytesToLane ((block.drop 32).take 8)),
        xor64 a5 (bytesToLane ((block.drop 40).take 8)),
        xor64 a6 (bytesToLane ((block.drop 48).take 8)),
        xor64 a7 (bytesToLane ((block.drop 56).take 8)),
        xor64 a8 (bytesToLane ((block.drop 64).take 8)),
        xor64 a9 (bytesToLane ((block.drop 72).take 8)),
        xor64 a10 (bytesToLane ((block.drop 80).take 8)),
        xor64 a11 (bytesToLane ((block.drop 88).take 8)),
        xor64 a12 (bytesToLane ((block.drop 96).take 8)),
        xor64 a13 (bytesToLane ((block.drop 104).take 8)),
        xor64 a14 (bytesToLane ((block.drop 112).take 8)),
        xor64 a15 (bytesToLane ((block.drop 120).take 8)),
        xor64 a16 (bytesToLane ((block.drop 128).take 8))] ++ rest)
  | _ => st

/-- Keccak (pre-SHA3) multi-rate padding for rate 136: append 0x01, zero or
more 0x00, and a final 0x80 (a single 0x81 byte when only one byte is free). -/
def pad136 (msg : List Nat) : List Nat :=
  let padLen := 136 - msg.length % 136
  if padLen = 1 then msg ++ [0x81]
  else msg ++ 0x01 :: List.replicate (padLen - 2) 0 ++ [0x80]

/-- Split a byte list into 136-byte blocks (fuel-based recursion). -/
def chunks136 : Nat → List Nat → List (List Nat)
  | 0, _ => []
  | _ + 1, [] => []
  | fuel + 1, bs => bs.take 136 :: chunks136 fuel (bs.drop 136)

/-- Keccak-256 of a byte list: the 32-byte digest Web3.keccak computes. -/
def keccak256 (msg : List Nat) : List Nat :=
  let padded := pad136 msg
  let st := (chunks136 padded.length padded).foldl absorbBlock (List.replicate 25 0)
  laneToBytes (getLane st 0) ++ laneToBytes (getLane st 1) ++
    laneToBytes (getLane st 2) ++ laneToBytes (getLane st 3)

/-- Lowercase hex digit for a value below 16. -/
def hexDigitChar (n : Nat) : Char :=
  if n = 0 then '0' else if n = 1 then '1' else if n = 2 then '2' else if n = 3 then '3'
  else if n = 4 then '4' else if n = 5 then '5' else if n = 6 then '6' else if n = 7 then '7'
  else if n = 8 then '8' else if n = 9 then '9' else if n = 10 then 'a' else if n = 11 then 'b'
  else if n = 12 then 'c' else if n = 13 then 'd' else if n = 14 then 'e' else 'f'

/-- Two lowercase hex characters for one byte. -/
def byteToHexChars (b : Nat) : List Char := [hexDigitChar (b / 16 % 16), hexDigitChar (b % 16)]

/-- HexBytes.hex() encoding: 0x prefix followed by lowercase hex of every byte. -/
def bytesToHexString (bs : List Nat) : String :=
  String.mk ('0' :: 'x' :: (bs.map byteToHexChars).flatten)

/-- UTF-8 encoding of one character (code point below 0x110000). -/
def utf8EncodeChar (c : Char) : List Nat :=
  let n := c.toNat
  if n < 0x80 then [n]
  else if n < 0x800 then [0xC0 + n / 64, 0x80 + n % 64]
  else if n < 0x10000 then [0xE0 + n / 4096, 0x80 + n / 64 % 64, 0x80 + n % 64]
  else [0xF0 + n / 262144, 0x80 + n / 4096 % 64, 0x80 + n / 64 % 64, 0x80 + n % 64]

/-- UTF-8 encoding of a string, as Python encodes text before hashing. -/
def utf8Bytes (s : String) : List Nat := s.data.flatMap utf8EncodeChar

/- ==== §4.1 markets.json configuration (monitor.py / api_server.py) ==== -/

/-- One markets.json entry: label, type (dex_pool / whale / exchange) and
optional address / pairAddress fields. -/
structure MarketEntry where
  label : String
  type : String
  address : Option String
  pairAddress : Option String
deriving DecidableEq

/-- The observable states of the markets.json file: absent, present but not
valid JSON, or a parsed entry list. -/
inductive MarketsFile where
  | missing
  | malformed
  | valid (entries : List MarketEntry)
deriving DecidableEq

namespace Monitor

/-- monitor.py load_markets: open + json.load with no handler, so a missing
file raises FileNotFoundError and bad JSON raises JSONDecodeError. -/
def load_markets : MarketsFile → Except String (List MarketEntry)
  | MarketsFile.missing => Except.error "FileNotFoundError"
  | MarketsFile.malformed => Except.error "JSONDecodeError"
  | MarketsFile.valid es => Except.ok es

/-- monitor.py calc_market_id: Web3.keccak(text=label), the raw 32-byte id. -/
def calc_market_id (label : String) : List Nat := keccak256 (utf8Bytes label)

/-- The hex string the Monitor persists for a market: market_id.hex()
(HexBytes.hex, 0x-prefixed lowercase). -/
def market_id_hex (label : String) : String := bytesToHexString (calc_market_id label)

end Monitor

namespace Api

/-- api_server.py load_markets_config: the same read wrapped in try/except
that catches only FileNotFoundError (returning []); a decode error still
raises. -/
def load_markets_config : MarketsFile → Except String (List MarketEntry)
  | MarketsFile.missing => Except.ok []
  | MarketsFile.malformed => Except.error "JSONDecodeError"
  | MarketsFile.valid es => Except.ok es

/-- api_server.py calc_market_id: Web3.keccak(text=label).hex(), the hex
string used as the database join key. -/
def calc_market_id (label : String) : String := bytesToHexString (keccak256 (utf8Bytes label))

end Api

/- ==== §4.7 compute_risk_level (monitor.py) ====
Python float arithmetic over the decimal threshold constants is modelled
exactly in Rat; all six metric fields are Python ints. -/

/-- The metrics bundle passed to compute_risk_level. -/
structure Metrics where
  dex_volume : ℤ
  dex_trades : ℤ
  whale_sell_total : ℤ
  whale_count_selling : ℤ
  cex_net_inflow : ℤ
  pool_liquidity : ℤ
deriving DecidableEq

/-- monitor.py line 94: pool_liquidity or 1 — Python `or` replaces only the
falsy value 0 by 1 and keeps every other integer. -/
def pool_liquidity_or1 (m : Metrics) : ℤ :=
  if m.pool_liquidity = 0 then 1 else m.pool_liquidity

/-- baseline_volume = pool_liquidity * 0.01. -/
def baseline_volume (m : Metrics) : ℚ := (pool_liquidity_or1 m : ℚ) * 0.01

/-- r = dex_volume / baseline_volume if baseline_volume > 0 else 0. -/
def dex_r (m : Metrics) : ℚ :=
  if baseline_volume m > 0 then (m.dex_volume : ℚ) / baseline_volume m else 0

/-- Component A, DEX activity score. -/
def dex_score (m : Metrics) : ℤ :=
  (if 1 ≤ dex_r m ∧ dex_r m < 2 then 10
   else if 2 ≤ dex_r m ∧ dex_r m < 5 then 20
   else if 5 ≤ dex_r m then 30 else 0)
  + (if 200 < m.dex_trades then 10 else 0)

/-- p = whale_sell_total / pool_liquidity. -/
def whale_p (m : Metrics) : ℚ := (m.whale_sell_total : ℚ) / (pool_liquidity_or1 m : ℚ)

/-- Component B, whale sell-pressure score. -/
def whale_score (m : Metrics) : ℤ :=
  (if 0.001 ≤ whale_p m ∧ whale_p m < 0.01 then 10
   else if 0.01 ≤ whale_p m ∧ whale_p m < 0.03 then 20
   else if 0.03 ≤ whale_p m then 30 else 0)
  + (if 3 ≤ m.whale_count_selling then 5 else 0)

/-- Component C, exchange net-inflow score. -/
def cex_score (m : Metrics) : ℤ :=
  if 0 < (m.cex_net_inflow : ℚ) ∧ (m.cex_net_inflow : ℚ) < 0.005 * (pool_liquidity_or1 m : ℚ)
    then 10
  else if 0.005 * (pool_liquidity_or1 m : ℚ) ≤ (m.cex_net_inflow : ℚ)
      ∧ (m.cex_net_inflow : ℚ) < 0.02 * (pool_liquidity_or1 m : ℚ)
    then 20
  else if 0.02 * (pool_liquidity_or1 m : ℚ) ≤ (m.cex_net_inflow : ℚ)
    then 30
  else 0

/-- score = dex_score + whale_score + cex_score. -/
def risk_total (m : Metrics) : ℤ := dex_score m + whale_score m + cex_score m

/-- monitor.py compute_risk_level: total score mapped onto levels 0..3. -/
def compute_risk_level (m : Metrics) : ℕ :=
  if risk_total m < 20 then 0
  else if risk_total m < 40 then 1
  else if risk_total m < 70 then 2
  else 3

/-- Python division with its ZeroDivisionError. -/
def pydivQ (a b : ℚ) : Except String ℚ :=
  if b = 0 then Except.error "ZeroDivisionError" else Except.ok (a / b)

/-- compute_risk_level with each Python division made explicit, so that a
division by zero surfaces as an error instead of a value. -/
def compute_risk_levelE (m : Metrics) : Except String ℕ :=
  (if baseline_volume m > 0 then pydivQ (m.dex_volume : ℚ) (baseline_volume m)
   else Except.ok 0).bind fun r =>
  (pydivQ (m.whale_sell_total : ℚ) (pool_liquidity_or1 m : ℚ)).bind fun p =>
  let ds : ℤ :=
    (if 1 ≤ r ∧ r < 2 then 10 else if 2 ≤ r ∧ r < 5 then 20 else if 5 ≤ r then 30 else 0)
    + (if 200 < m.dex_trades then 10 else 0)
  let ws : ℤ :=
    (if 0.001 ≤ p ∧ p < 0.01 then 10 else if 0.01 ≤ p ∧ p < 0.03 then 20
     else if 0.03 ≤ p then 30 else 0)
    + (if 3 ≤ m.whale_count_selling then 5 else 0)
  let score := ds + ws + cex_score m
  Except.ok (if score < 20 then 0 else if score < 40 then 1 else if score < 70 then 2 else 3)

namespace Spec

/-- Modelled from the spec (§4.7): poolLiquidity is floored at 1. -/
def pool_liquidity_floored (m : Metrics) : ℤ := max m.pool_liquidity 1

/-- Modelled from the spec (§4.7): baselineVolume = poolLiquidity * 0.01. -/
def baseline_volume (m : Metrics) : ℚ := (pool_liquidity_floored m : ℚ) * 0.01

/-- Modelled from the spec (§4.7): r = dexVolume / baselineVolume, 0 if the
baseline is 0. -/
def dex_r (m : Metrics) : ℚ :=
  if baseline_volume m = 0 then 0 else (m.dex_volume : ℚ) / baseline_volume m

/-- Modelled from the spec (§4.7): component A. -/
def dex_score (m : Metrics) : ℤ :=
  (if 1 ≤ dex_r m ∧ dex_r m < 2 then 10
   else if 2 ≤ dex_r m ∧ dex_r m < 5 then 20
   else if 5 ≤ dex_r m then 30 else 0)
  + (if 200 < m.dex_trades then 10 else 0)

/-- Modelled from the spec (§4.7): p = whaleSellTotal / poolLiquidity. -/
def whale_p (m : Metrics) : ℚ :=
  (m.whale_sell_total : ℚ) / (pool_liquidity_floored m : ℚ)

/-- Modelled from the spec (§4.7): component B. -/
def whale_score (m : Metrics) : ℤ :=
  (if 0.001 ≤ whale_p m ∧ whale_p m < 0.01 then 10
   else if 0.01 ≤ whale_p m ∧ whale_p m < 0.03 then 20
   else if 0.03 ≤ whale_p m then 30 else 0)
  + (if 3 ≤ m.whale_count_selling then 5 else 0)

/-- Modelled from the spec (§4.7): component C. -/
def cex_score (m : Metrics) : ℤ :=
  if 0 < (m.cex_net_inflow : ℚ)
      ∧ (m.cex_net_inflow : ℚ) < 0.005 * (pool_liquidity_floored m : ℚ)
    then 10
  else if 0.005 * (pool_liquidity_floored m : ℚ) ≤ (m.cex_net_inflow : ℚ)
      ∧ (m.cex_net_inflow : ℚ) < 0.02 * (pool_liquidity_floored m : ℚ)
    then 20
  else if 0.02 * (pool_liquidity_floored m : ℚ) ≤ (m.cex_net_inflow : ℚ)
    then 30
  else 0

/-- Modelled from the spec (§4.7): Total = A + B + C. -/
def total (m : Metrics) : ℤ := dex_score m + whale_score m + cex_score m

/-- Modelled from the spec (§4.7): level mapping. -/
def risk_level (m : Metrics) : ℕ :=
  if total m < 20 then 0 else if total m < 40 then 1 else if total m < 70 then 2 else 3

end Spec

/- ==== §4.5 estimate_pool_liquidity (whale_cex.py) ==== -/

/-- whale_cex.py estimate_pool_liquidity, with the outcome of the
getReserves() RPC read passed in explicitly: a successful call yields
(reserve0, reserve1, blockTimestampLast), a failed one an error. -/
def estimate_pool_liquidity (reserves : Except String (ℤ × ℤ × ℤ)) : ℤ :=
  match reserves with
  | Except.ok (reserve0, reserve1, _) =>
    let liquidity := reserve0 + reserve1
    if liquidity ≤ 0 then 10 ^ 24 else liquidity
  | Except.error _ => 10 ^ 24

/- ==== §4.3 risk_levels rows and §4.8 read endpoints (api_server.py) ==== -/

/-- One risk_levels row: autoincrement id, hex market id, level, creation
time (timestamps modelled as naturals that order like the stored strings). -/
structure RiskRow where
  id : ℕ
  market_id : String
  level : ℕ
  created_at : ℕ
deriving DecidableEq

/-- Insertion step for the descending-by-created_at sort. -/
def insertDescByCreated (r : RiskRow) : List RiskRow → List RiskRow
  | [] => [r]
  | s :: rest =>
    if s.created_at < r.created_at then r :: s :: rest else s :: insertDescByCreated r rest

/-- ORDER BY created_at DESC (stable insertion sort). -/
def sortDescByCreated (rows : List RiskRow) : List RiskRow :=
  rows.foldr insertDescByCreated []

/-- Insertion step for the ascending-by-created_at sort. -/
def insertAscByCreated (r : RiskRow) : List RiskRow → List RiskRow
  | [] => [r]
  | s :: rest =>
    if r.created_at < s.created_at then r :: s :: rest else s :: insertAscByCreated r rest

/-- ORDER BY created_at ASC (stable insertion sort). -/
def sortAscByCreated (rows : List RiskRow) : List RiskRow :=
  rows.foldr insertAscByCreated []

/-- ORDER BY created_at DESC LIMIT 1: a row with maximal created_at
(the first such row in table order), none on an empty result. -/
def latestByCreated : List RiskRow → Option RiskRow
  | [] => none
  | r :: rest => some (rest.foldl (fun acc s => if acc.created_at < s.created_at then s else acc) r)

/-- api_server.py get_latest_risk_level: latest level for a market id plus
score level*25 + 12.5, or (0, 0.0, None) when the market has no rows. -/
def get_latest_risk_level (rows : List RiskRow) (market_id : String) : ℕ × ℚ × Option ℕ :=
  match latestByCreated (rows.filter fun r => r.market_id = market_id) with
  | some r => (r.level, (r.level : ℚ) * 25 + 12.5, some r.created_at)
  | none => (0, 0, none)

/-- api_server.py get_risk_history core: rows of one market created at or
after the cutoff, ascending, mapped to (timestamp, level, score). -/
def risk_history (rows : List RiskRow) (market_id : String) (cutoff : ℕ) :
    List (ℕ × ℕ × ℚ) :=
  (sortAscByCreated (rows.filter fun r => r.market_id = market_id ∧ cutoff ≤ r.created_at)).map
    fun r => (r.created_at, r.level, (r.level : ℚ) * 25 + 12.5)

/-- Python str.split on a single underscore separator. -/
def pySplitUnderscore : List Char → List (List Char)
  | [] => [[]]
  | c :: rest =>
    match pySplitUnderscore rest with
    | [] => [[c]]
    | g :: gs => if c = '_' then [] :: g :: gs else (c :: g) :: gs

/-- label.split with separator underscore, as a list of strings. -/
def splitLabel (label : String) : List String :=
  (pySplitUnderscore label.data).map fun g => String.mk g

/-- api_server.py token parsing: token0 = parts[-2] (TOKEN0 when fewer than
two parts), token1 = parts[-1] (TOKEN1 when empty, unreachable for split). -/
def parse_tokens (label : String) : String × String :=
  let parts := splitLabel label
  ((if 2 ≤ parts.length then parts.getD (parts.length - 2) "TOKEN0" else "TOKEN0"),
   (if 1 ≤ parts.length then parts.getLastD "TOKEN1" else "TOKEN1"))

/-- Python `config.get("pairAddress") or config.get("address", "")`. -/
def addr_or (pairAddress address : Option String) : String :=
  match pairAddress with
  | some s => if s = "" then address.getD "" else s
  | none => address.getD ""

/-- The market object served by /api/markets and the market detail endpoint. -/
structure Market where
  id : String
  label : String
  type : String
  address : String
  token0 : String
  token1 : String
  riskLevel : ℕ
  riskScore : ℚ
  lastUpdated : Option ℕ
  isActive : Bool

/-- api_server.py get_markets: dex_pool entries enriched with the latest
persisted level and the level*25 + 12.5 score. -/
def get_markets (cfg : List MarketEntry) (rows : List RiskRow) : List Market :=
  (cfg.filter fun c => c.type = "dex_pool").map fun c =>
    let market_id := Api.calc_market_id c.label
    let res := get_latest_risk_level rows market_id
    let toks :=
      if c.pairAddress.isSome ∨ c.address.isSome then parse_tokens c.label
      else ("TOKEN0", "TOKEN1")
    { id := c.label, label := c.label, type := c.type,
      address := addr_or c.pairAddress c.address,
      token0 := toks.1, token1 := toks.2,
      riskLevel := res.1, riskScore := res.2.1, lastUpdated := res.2.2,
      isActive := true }

/- ==== /api/alerts (api_server.py get_alerts) ==== -/

/-- severity_map.get(new_level, "low"). -/
def severity_map (level : ℕ) : String :=
  if level = 0 then "low" else if level = 1 then "medium"
  else if level = 2 then "high" else if level = 3 then "critical" else "low"

/-- The correlated subquery: level of the row of the same market with the
greatest id below this row's id. -/
def prev_level (rows : List RiskRow) (r : RiskRow) : Option ℕ :=
  match rows.filter fun s => s.market_id = r.market_id ∧ s.id < r.id with
  | [] => none
  | s :: rest => some ((rest.foldl (fun acc t => if acc.id < t.id then t else acc) s).level)

/-- One synthesized alert. -/
structure Alert where
  id : ℕ
  marketId : String
  marketLabel : String
  severity : String
  previousLevel : Option ℕ
  newLevel : ℕ
  createdAt : ℕ
deriving DecidableEq

/-- market_id hex to label mapping derived from configuration. -/
def market_labels (cfg : List MarketEntry) : List (String × String) :=
  cfg.map fun m => (Api.calc_market_id m.label, m.label)

/-- market_labels.get with the default market_id[:8]. -/
def lookup_label (labels : List (String × String)) (market_id : String) : String :=
  match labels.lookup market_id with
  | some l => l
  | none => market_id.take 8

/-- The Python severity filter `severity and alert_severity != severity`:
truthiness first, so a missing or empty-string filter skips nothing. -/
def severity_skips (severity : Option String) (alert_severity : String) : Bool :=
  match severity with
  | none => false
  | some s => decide (s ≠ "") && decide (alert_severity ≠ s)

/-- api_server.py get_alerts: scan the most recent 50 risk rows (by
created_at, descending), emit one alert per row whose level differs from
its predecessor (or that has no predecessor), optionally filtered by the
computed severity. -/
def get_alerts (rows : List RiskRow) (cfg : List MarketEntry) (severity : Option String) :
    List Alert :=
  ((sortDescByCreated rows).take 50).filterMap fun r =>
    if prev_level rows r = none ∨ prev_level rows r ≠ some r.level then
      if severity_skips severity (severity_map r.level) then none
      else some { id := r.id, marketId := r.market_id,
                  marketLabel := lookup_label (market_labels cfg) r.market_id,
                  severity := severity_map r.level, previousLevel := prev_level rows r,
                  newLevel := r.level, createdAt := r.created_at }
    else none

/- ==== §4.6 the Monitor polling cycle (monitor.py monitor_loop body) ==== -/

/-- One fetched swap (the fields the cycle logic reads). -/
structure Trade where
  tx_hash : String
  amount_in : ℤ
deriving DecidableEq

/-- The external data one polling cycle observes: fetched swaps, estimated
pool liquidity, whale metrics and exchange net inflow. -/
structure CycleInput where
  trades : List Trade
  pool_liquidity : ℤ
  whale_sell_total : ℤ
  whale_count_selling : ℤ
  cex_net_inflow : ℤ
deriving DecidableEq

/-- The metrics dict the cycle builds: dex_volume is the sum of amount_in,
dex_trades the number of fetched swaps. -/
def cycle_metrics (inp : CycleInput) : Metrics :=
  { dex_volume := (inp.trades.map Trade.amount_in).sum,
    dex_trades := inp.trades.length,
    whale_sell_total := inp.whale_sell_total,
    whale_count_selling := inp.whale_count_selling,
    cex_net_inflow := inp.cex_net_inflow,
    pool_liquidity := inp.pool_liquidity }

/-- The level one cycle computes. -/
def cycle_level (inp : CycleInput) : ℕ := compute_risk_level (cycle_metrics inp)

/-- One db.save_risk_level insert. -/
structure RiskSave where
  market_id : String
  level : ℕ
  source : String
deriving DecidableEq

/-- The observable outcome of the tail of one polling cycle (monitor.py
lines 237-256): the risk row inserted by db.save_risk_level, the
updateRisk transaction if one was broadcast, and the next last_level. -/
structure CycleResult where
  saved_risk : RiskSave
  tx_sent : Option (List ℕ × ℕ)
  last_level : Option ℕ

/- ==== the monitor.py:203 call to fetch_whale_metrics (claims C1, C7) ==== -/

/-- The parameters of whale_cex.fetch_whale_metrics in order, each marked
with whether it has a default value: whales, cex_addresses and pair_address
are required, blocks_back and network have defaults. -/
def fetch_whale_metrics_params : List (String × Bool) :=
  [("whales", false), ("cex_addresses", false), ("pair_address", false),
   ("blocks_back", true), ("network", true)]

/-- Python call binding for a keyword-only call site: unknown keyword
arguments, or required parameters left unbound, raise a TypeError before
the function body runs; the error carries the offending parameter names. -/
def bind_python_call (params : List (String × Bool)) (kwargs : List String) :
    Except (List String) Unit :=
  let unexpected := kwargs.filter fun k => !(params.any fun p => p.1 = k)
  let missing := (params.filter fun p => !p.2 && !(kwargs.contains p.1)).map Prod.fst
  if unexpected ≠ [] then Except.error unexpected
  else if missing ≠ [] then Except.error missing
  else Except.ok ()

/-- The keyword arguments monitor_loop passes to fetch_whale_metrics at
monitor.py lines 203-208: whales, cex_addresses, blocks_back, network. -/
def monitor_whale_call_kwargs : List String :=
  ["whales", "cex_addresses", "blocks_back", "network"]

/-- The binding outcome of the step-3 call in every monitor cycle. -/
def monitor_whale_call_binding : Except (List String) Unit :=
  bind_python_call fetch_whale_metrics_params monitor_whale_call_kwargs

/-- The remainder of one monitor_loop iteration after the data fetches
(monitor.py lines 217-256): persist the level tagged multi_factor
unconditionally, and send updateRisk exactly when last_level is None or
the level changed (updating last_level then). As shipped this code is
unreachable — step 3 raises first (see monitor_cycle below). -/
def monitor_cycle_rest (market_id : List ℕ) (inp : CycleInput) (last_level : Option ℕ) :
    CycleResult :=
  if last_level = none ∨ some (cycle_level inp) ≠ last_level then
    { saved_risk := { market_id := bytesToHexString market_id,
                      level := cycle_level inp, source := "multi_factor" },
      tx_sent := some (market_id, cycle_level inp), last_level := some (cycle_level inp) }
  else
    { saved_risk := { market_id := bytesToHexString market_id,
                      level := cycle_level inp, source := "multi_factor" },
      tx_sent := none, last_level := last_level }

/-- One full monitor_loop iteration as shipped: the fetched swaps are
persisted by db.save_trades (line 194) and the pool liquidity estimated;
then step 3 calls fetch_whale_metrics, and only if that call binds does
the iteration continue into monitor_cycle_rest. The first component
records the trades already saved before the call; an error is the uncaught
TypeError that ends the process. -/
def monitor_cycle (market_id : List ℕ) (inp : CycleInput) (last_level : Option ℕ) :
    List Trade × Except (List String) CycleResult :=
  (inp.trades,
   match monitor_whale_call_binding with
   | Except.error args => Except.error args
   | Except.ok _ => Except.ok (monitor_cycle_rest market_id inp last_level))

/- ==== concrete inputs used by the theorems below ==== -/

/-- The §8.2 boundary vector. -/
def vec82 : Metrics :=
  { dex_volume := 15000, dex_trades := 50, whale_sell_total := 5000,
    whale_count_selling := 1, cex_net_inflow := 3000, pool_liquidity := 1000000 }

/-- A bundle with negative pool liquidity, where the code and the spec text
disagree. -/
def mNeg : Metrics :=
  { dex_volume := 0, dex_trades := 0, whale_sell_total := 0,
    whale_count_selling := 0, cex_net_inflow := 0, pool_liquidity := -1000 }

/-- Five rows for one market with levels 0,0,1,1,2 in insertion (id and
time) order. -/
def c3Rows : List RiskRow :=
  [{ id := 1, market_id := "m1", level := 0, created_at := 1 },
   { id := 2, market_id := "m1", level := 0, created_at := 2 },
   { id := 3, market_id := "m1", level := 1, created_at := 3 },
   { id := 4, market_id := "m1", level := 1, created_at := 4 },
   { id := 5, market_id := "m1", level := 2, created_at := 5 }]

/-- One configured dex_pool entry. -/
def c4Cfg : List MarketEntry :=
  [{ label := "UNI_USDC_WETH", type := "dex_pool", address := none,
     pairAddress := some "0xpair" }]

/-- The market object the list endpoint serves for c4Cfg over an empty
database: level 0 with score 0.0, not 12.5. -/
def c4Market : Market :=
  { id := "UNI_USDC_WETH", label := "UNI_USDC_WETH", type := "dex_pool",
    address := "0xpair", token0 := "USDC", token1 := "WETH",
    riskLevel := 0, riskScore := 0, lastUpdated := none, isActive := true }

/-- A one-row database. -/
def c4Rows : List RiskRow :=
  [{ id := 1, market_id := "m1", level := 2, created_at := 10 }]

/- ========================= theorems ========================= -/

set_option maxHeartbeats 4000000 in
/-- Keccak-256 of the empty byte string (known test vector), validating the
padding, permutation and squeeze pipeline above. -/
theorem keccak256_nil_vector : keccak256 [] =
    [0xc5, 0xd2, 0x46, 0x01, 0x86, 0xf7, 0x23, 0x3c, 0x92, 0x7e, 0x7d, 0xb2, 0xdc, 0xc7,
     0x03, 0xc0, 0xe5, 0x00, 0xb6, 0x53, 0xca, 0x82, 0x27, 0x3b, 0x7b, 0xfa, 0xd8, 0x04,
     0x5d, 0x85, 0xa4, 0x70] := by decide

/-- Each serialized lane is 8 bytes. -/
theorem laneToBytes_length (n : Nat) : (laneToBytes n).length = 8 := rfl

/-- Keccak-256 always squeezes exactly 32 bytes. -/
theorem keccak256_length (msg : List Nat) : (keccak256 msg).length = 32 := by
  simp [keccak256, List.length_append, laneToBytes_length]

/- ==== scoring lemmas ==== -/

theorem pool_liquidity_or1_ne_zero (m : Metrics) : (pool_liquidity_or1 m : ℚ) ≠ 0 := by
  unfold pool_liquidity_or1
  by_cases h : m.pool_liquidity = 0
  · simp [h]
  · simp [h]

theorem computeE_eq_ok (m : Metrics) :
    compute_risk_levelE m = Except.ok (compute_risk_level m) := by
  have hpl := pool_liquidity_or1_ne_zero m
  unfold compute_risk_levelE pydivQ
  by_cases hb : baseline_volume m > 0
  · rw [if_pos hb, if_neg (ne_of_gt hb), if_neg hpl]
    simp only [Except.bind]
    unfold compute_risk_level risk_total dex_score whale_score dex_r whale_p
    rw [if_pos hb]
  · rw [if_neg hb, if_neg hpl]
    simp only [Except.bind]
    unfold compute_risk_level risk_total dex_score whale_score dex_r whale_p
    rw [if_neg hb]

theorem pool_liquidity_or1_pos (m : Metrics) (h : 0 ≤ m.pool_liquidity) :
    0 < pool_liquidity_or1 m := by
  unfold pool_liquidity_or1
  split <;> omega

theorem baseline_volume_pos (m : Metrics) (h : 0 ≤ m.pool_liquidity) :
    0 < baseline_volume m := by
  have h1 : (0 : ℚ) < (pool_liquidity_or1 m : ℚ) := by
    exact_mod_cast pool_liquidity_or1_pos m h
  have h2 : (0 : ℚ) < 0.01 := by norm_num
  exact mul_pos h1 h2

theorem spec_floor_eq_or1 (m : Metrics) (h : 0 ≤ m.pool_liquidity) :
    Spec.pool_liquidity_floored m = pool_liquidity_or1 m := by
  unfold Spec.pool_liquidity_floored pool_liquidity_or1
  split <;> omega

/-- On every bundle with non-negative pool liquidity the source scoring
function and the spec §4.7 scoring function agree. -/
theorem spec_risk_level_eq (m : Metrics) (h : 0 ≤ m.pool_liquidity) :
    compute_risk_level m = Spec.risk_level m := by
  have hfl := spec_floor_eq_or1 m h
  have hb := baseline_volume_pos m h
  have hbs : Spec.baseline_volume m = baseline_volume m := by
    unfold Spec.baseline_volume baseline_volume
    rw [hfl]
  have hr : Spec.dex_r m = dex_r m := by
    unfold Spec.dex_r dex_r
    rw [hbs, if_pos hb, if_neg (ne_of_gt hb)]
  have hp : Spec.whale_p m = whale_p m := by
    unfold Spec.whale_p whale_p
    rw [hfl]
  have hdex : Spec.dex_score m = dex_score m := by
    unfold Spec.dex_score dex_score
    rw [hr]
  have hwh : Spec.whale_score m = whale_score m := by
    unfold Spec.whale_score whale_score
    rw [hp]
  have hcex : Spec.cex_score m = cex_score m := by
    unfold Spec.cex_score cex_score
    rw [hfl]
  unfold compute_risk_level Spec.risk_level risk_total Spec.total
  rw [hdex, hwh, hcex]

theorem vec82_dex : dex_score vec82 = 10 := by
  norm_num [dex_score, dex_r, baseline_volume, pool_liquidity_or1, vec82]

theorem vec82_whale : whale_score vec82 = 10 := by
  norm_num [whale_score, whale_p, pool_liquidity_or1, vec82]

theorem vec82_cex : cex_score vec82 = 10 := by
  norm_num [cex_score, pool_liquidity_or1, vec82]

theorem vec82_level : compute_risk_level vec82 = 1 := by
  norm_num [compute_risk_level, risk_total, vec82_dex, vec82_whale, vec82_cex]

theorem mNeg_code : compute_risk_level mNeg = 1 := by
  norm_num [compute_risk_level, risk_total, dex_score, whale_score, cex_score,
    dex_r, whale_p, baseline_volume, pool_liquidity_or1, mNeg]

theorem mNeg_spec : Spec.risk_level mNeg = 0 := by
  norm_num [Spec.risk_level, Spec.total, Spec.dex_score, Spec.whale_score, Spec.cex_score,
    Spec.dex_r, Spec.whale_p, Spec.baseline_volume, Spec.pool_liquidity_floored, mNeg]

/- ==== score-mapping lemmas (api_server.py) ==== -/

theorem get_latest_score_of_mem (rows : List RiskRow) (mid : String)
    (h : ∃ r ∈ rows, r.market_id = mid) :
    (get_latest_risk_level rows mid).2.1
      = ((get_latest_risk_level rows mid).1 : ℚ) * 25 + 12.5 := by
  have hne : rows.filter (fun r => r.market_id = mid) ≠ [] := by
    obtain ⟨r, hr, hm⟩ := h
    intro hnil
    have := List.filter_eq_nil_iff.mp hnil r hr
    simp [hm] at this
  obtain ⟨a, l, he⟩ : ∃ a l, rows.filter (fun r => r.market_id = mid) = a :: l := by
    cases hq : rows.filter (fun r => r.market_id = mid) with
    | nil => exact absurd hq hne
    | cons a l => exact ⟨a, l, rfl⟩
  unfold get_latest_risk_level
  rw [he]
  rfl

theorem risk_history_score (rows : List RiskRow) (mid : String) (cutoff : ℕ) :
    ∀ p ∈ risk_history rows mid cutoff, p.2.2 = (p.2.1 : ℚ) * 25 + 12.5 := by
  intro p hp
  unfold risk_history at hp
  obtain ⟨r, _, rfl⟩ := List.mem_map.mp hp
  rfl

theorem get_markets_score (cfg : List MarketEntry) (rows : List RiskRow) (m : Market)
    (hm : m ∈ get_markets cfg rows)
    (h : ∃ r ∈ rows, r.market_id = Api.calc_market_id m.label) :
    m.riskScore = (m.riskLevel : ℚ) * 25 + 12.5 := by
  unfold get_markets at hm
  obtain ⟨c, hc, rfl⟩ := List.mem_map.mp hm
  exact get_latest_score_of_mem rows _ h

theorem get_latest_no_rows (rows : List RiskRow) (mid : String)
    (h : ∀ r ∈ rows, r.market_id ≠ mid) :
    get_latest_risk_level rows mid = (0, 0, none) := by
  have hnil : rows.filter (fun r => r.market_id = mid) = [] := by
    apply List.filter_eq_nil_iff.mpr
    intro a ha
    simp [h a ha]
  unfold get_latest_risk_level
  rw [hnil]
  rfl

theorem c4_markets_eval : get_markets c4Cfg [] = [c4Market] := rfl

/- ==== monitor cycle lemmas ==== -/

theorem monitor_cycle_rest_last_level (mid : List ℕ) (inp : CycleInput) (last : Option ℕ) :
    (monitor_cycle_rest mid inp last).last_level = some (cycle_level inp) := by
  unfold monitor_cycle_rest
  split
  · rfl
  · next h =>
    push_neg at h
    rw [← h.2]

theorem monitor_cycle_rest_tx_iff (mid : List ℕ) (inp : CycleInput) (last : Option ℕ) :
    (monitor_cycle_rest mid inp last).tx_sent ≠ none
      ↔ (last = none ∨ last ≠ some (cycle_level inp)) := by
  unfold monitor_cycle_rest
  split
  · next h =>
    simp only [ne_eq, reduceCtorEq, not_false_eq_true, true_iff]
    rcases h with h | h
    · exact Or.inl h
    · exact Or.inr (fun hx => h (hx ▸ rfl))
  · next h =>
    push_neg at h
    simp only [ne_eq, not_true_eq_false, false_iff, not_or, not_not]
    exact ⟨h.1, h.2.symm⟩

theorem monitor_cycle_rest_saved (mid : List ℕ) (inp : CycleInput) (last : Option ℕ) :
    (monitor_cycle_rest mid inp last).saved_risk
      = { market_id := bytesToHexString mid, level := cycle_level inp,
          source := "multi_factor" } := by
  unfold monitor_cycle_rest
  split <;> rfl

theorem monitor_cycle_rest_no_repeat (mid : List ℕ) (i1 i2 : CycleInput) (last : Option ℕ)
    (h : cycle_level i2 = cycle_level i1) :
    (monitor_cycle_rest mid i2 ((monitor_cycle_rest mid i1 last).last_level)).tx_sent
      = none := by
  rw [monitor_cycle_rest_last_level]
  unfold monitor_cycle_rest
  rw [if_neg]
  push_neg
  exact ⟨by simp, by simp [h]⟩

/- ==== alert lemmas ==== -/

theorem severity_map_ne_bogus (l : ℕ) : severity_map l ≠ "bogus" := by
  unfold severity_map
  split
  · decide
  · split
    · decide
    · split
      · decide
      · split <;> decide

theorem alerts_bogus_empty (rows : List RiskRow) (cfg : List MarketEntry) :
    get_alerts rows cfg (some "bogus") = [] := by
  unfold get_alerts
  apply List.filterMap_eq_nil_iff.mpr
  intro r _
  split
  · rw [if_pos]
    unfold severity_skips
    simp [severity_map_ne_bogus r.level]
  · rfl

/- ========================= claims ========================= -/

/-- Claim C1 (code defect): monitor_loop step 3 invokes fetch_whale_metrics
without the required pair_address argument, so in every cycle the call
raises a TypeError naming pair_address instead of completing and including
the pool address in the sell-target set. -/
theorem c1_whale_call_missing_pair_address :
    monitor_whale_call_binding = Except.error ["pair_address"] := rfl

/-- Claim C2 counterexample: on the bundle mNeg (pool_liquidity = -1000,
everything else 0) the source returns level 1 (its cex branch compares
against negative thresholds) while the §4.7 scoring with poolLiquidity
floored at 1 returns level 0, so the claimed equality does not hold for
every bundle. -/
theorem c2_counterexample :
    compute_risk_level mNeg = 1 ∧ Spec.risk_level mNeg = 0
      ∧ compute_risk_level mNeg ≠ Spec.risk_level mNeg := by
  refine ⟨mNeg_code, mNeg_spec, ?_⟩
  rw [mNeg_code, mNeg_spec]
  decide

/-- Claim C2 (amended): for every metrics bundle with non-negative
poolLiquidity, compute_risk_level equals the §4.7 component-sum scoring
with its level mapping; in particular the §8.2 vector scores 10/10/10,
total 30, level 1. -/
theorem c2_risk_scoring :
    (∀ m : Metrics, 0 ≤ m.pool_liquidity → compute_risk_level m = Spec.risk_level m)
  ∧ dex_score vec82 = 10 ∧ whale_score vec82 = 10 ∧ cex_score vec82 = 10
  ∧ risk_total vec82 = 30 ∧ compute_risk_level vec82 = 1 := by
  refine ⟨spec_risk_level_eq, vec82_dex, vec82_whale, vec82_cex, ?_, vec82_level⟩
  rw [risk_total, vec82_dex, vec82_whale, vec82_cex]
  decide

/-- Claim C2 witness: the amended equivalence applied at the §8.2 vector. -/
theorem c2_risk_scoring_witness :
    (0 : ℤ) ≤ vec82.pool_liquidity ∧ compute_risk_level vec82 = Spec.risk_level vec82 :=
  ⟨by decide, c2_risk_scoring.1 vec82 (by decide)⟩

/-- Claim C3 counterexample: on rows with levels 0,0,1,1,2 for one market,
GET /api/alerts without a severity filter yields three alerts, not the
claimed two — the very first recorded level (no predecessor) also emits an
alert. -/
theorem c3_counterexample : (get_alerts c3Rows [] none).length ≠ 2 := by decide

/-- Claim C3 (amended): on rows with levels 0,0,1,1,2 for one market,
GET /api/alerts without a severity filter yields exactly three alerts,
newest first: 1 to 2 with severity high, 0 to 1 with severity medium, and
the initial record none to 0 with severity low, each carrying the correct
previous and new level. -/
theorem c3_alert_synthesis :
    get_alerts c3Rows [] none =
      [{ id := 5, marketId := "m1", marketLabel := "m1", severity := "high",
         previousLevel := some 1, newLevel := 2, createdAt := 5 },
       { id := 3, marketId := "m1", marketLabel := "m1", severity := "medium",
         previousLevel := some 0, newLevel := 1, createdAt := 3 },
       { id := 1, marketId := "m1", marketLabel := "m1", severity := "low",
         previousLevel := none, newLevel := 0, createdAt := 1 }] := by decide

/-- Claim C4 counterexample: a configured market with no persisted risk
rows is served with riskScore 0.0 and riskLevel 0, violating the claimed
riskScore = riskLevel * 25 + 12.5 for markets without rows. -/
theorem c4_counterexample :
    ∃ m ∈ get_markets c4Cfg [], m.riskScore ≠ (m.riskLevel : ℚ) * 25 + 12.5 := by
  refine ⟨c4Market, ?_, ?_⟩
  · rw [c4_markets_eval]
    exact List.mem_singleton.mpr rfl
  · show (0 : ℚ) ≠ (0 : ℚ) * 25 + 12.5
    norm_num

/-- Claim C4 (amended): every risk-history point satisfies
score = level * 25 + 12.5; a market object satisfies
riskScore = riskLevel * 25 + 12.5 whenever at least one RiskLevelRecord row
exists for its market id; with no rows the latest-level helper returns
level 0 with score 0.0 instead. -/
theorem c4_score_mapping :
    (∀ rows mid, (∃ r ∈ rows, r.market_id = mid) →
        (get_latest_risk_level rows mid).2.1
          = ((get_latest_risk_level rows mid).1 : ℚ) * 25 + 12.5)
  ∧ (∀ rows mid cutoff, ∀ p ∈ risk_history rows mid cutoff,
        p.2.2 = (p.2.1 : ℚ) * 25 + 12.5)
  ∧ (∀ cfg rows m, m ∈ get_markets cfg rows →
        (∃ r ∈ rows, r.market_id = Api.calc_market_id m.label) →
        m.riskScore = (m.riskLevel : ℚ) * 25 + 12.5)
  ∧ (∀ rows mid, (∀ r ∈ rows, r.market_id ≠ mid) →
        get_latest_risk_level rows mid = (0, 0, none)) :=
  ⟨get_latest_score_of_mem, risk_history_score,
   fun cfg rows m hm h => get_markets_score cfg rows m hm h, get_latest_no_rows⟩

/-- Claim C4 witness: the amended mapping applied to a one-row database and
to an empty one. -/
theorem c4_score_mapping_witness :
    ((∃ r ∈ c4Rows, r.market_id = "m1")
      ∧ (get_latest_risk_level c4Rows "m1").2.1
          = ((get_latest_risk_level c4Rows "m1").1 : ℚ) * 25 + 12.5)
  ∧ ((∀ r ∈ ([] : List RiskRow), r.market_id ≠ "m2")
      ∧ get_latest_risk_level [] "m2" = (0, 0, none)) :=
  ⟨⟨by decide, c4_score_mapping.1 c4Rows "m1" (by decide)⟩,
   ⟨by simp, c4_score_mapping.2.2.2 [] "m2" (by simp)⟩⟩

/-- Claim C5 counterexample: on a malformed configuration file the API
Server's loader does not return an empty sequence — the decode error
propagates (only FileNotFoundError is caught). -/
theorem c5_counterexample :
    Api.load_markets_config MarketsFile.malformed ≠ Except.ok [] := by
  simp [Api.load_markets_config]

/-- Claim C5 (amended): the Monitor's load_markets raises for both a
missing and a malformed file; the API Server's load_markets_config returns
an empty sequence only for a missing file and still raises on a malformed
one; both return the parsed entries on a valid file. -/
theorem c5_load_markets :
    Monitor.load_markets MarketsFile.missing = Except.error "FileNotFoundError"
  ∧ Monitor.load_markets MarketsFile.malformed = Except.error "JSONDecodeError"
  ∧ Api.load_markets_config MarketsFile.missing = Except.ok []
  ∧ Api.load_markets_config MarketsFile.malformed = Except.error "JSONDecodeError"
  ∧ (∀ es, Monitor.load_markets (MarketsFile.valid es) = Except.ok es
       ∧ Api.load_markets_config (MarketsFile.valid es) = Except.ok es) :=
  ⟨rfl, rfl, rfl, rfl, fun _ => ⟨rfl, rfl⟩⟩

/-- Claim C6: the market id is a pure function of the label — the hex
string the Monitor persists (market_id.hex()) coincides with the hex key
the API computes for the same label, and the underlying digest is always
32 bytes; determinism across repeated calls is immediate because both
components apply this one function to the UTF-8 bytes of the label. -/
theorem c6_market_id_agreement :
    (∀ label : String, Monitor.market_id_hex label = Api.calc_market_id label)
  ∧ (∀ label : String, (Monitor.calc_market_id label).length = 32) :=
  ⟨fun _ => rfl, fun label => keccak256_length (utf8Bytes label)⟩

/-- Claim C7 (code defect): every monitor cycle as shipped persists the
fetched swaps and then aborts at step 3 with the TypeError naming
pair_address, before db.save_risk_level (line 241) or the publish branch
(lines 248-253) can run — so no cycle persists a multi_factor row or sends
an updateRisk transaction, contrary to the claim. The conditional
publish-iff-changed logic the claim describes holds of the unreached
remainder, see the monitor_cycle_rest lemmas above. -/
theorem c7_cycle_aborts_before_persist :
    ∀ (mid : List ℕ) (inp : CycleInput) (last : Option ℕ),
      monitor_cycle mid inp last = (inp.trades, Except.error ["pair_address"]) :=
  fun _ _ _ => rfl

/-- Claim C8: estimate_pool_liquidity returns reserve0 + reserve1 when the
read succeeds with a positive sum, the fallback 10^24 when the call fails
or the sum is non-positive, and its result is always strictly positive. -/
theorem c8_estimate_pool_liquidity :
    (∀ r0 r1 ts : ℤ, 0 < r0 + r1 →
        estimate_pool_liquidity (Except.ok (r0, r1, ts)) = r0 + r1)
  ∧ (∀ r0 r1 ts : ℤ, r0 + r1 ≤ 0 →
        estimate_pool_liquidity (Except.ok (r0, r1, ts)) = 10 ^ 24)
  ∧ (∀ e, estimate_pool_liquidity (Except.error e) = 10 ^ 24)
  ∧ (∀ res, 0 < estimate_pool_liquidity res) := by
  refine ⟨?_, ?_, ?_, ?_⟩
  · intro r0 r1 ts h
    simp [estimate_pool_liquidity, not_le.mpr h]
  · intro r0 r1 ts h
    simp [estimate_pool_liquidity, h]
  · intro e
    rfl
  · intro res
    rcases res with e | ⟨r0, r1, ts⟩
    · norm_num [estimate_pool_liquidity]
    · simp only [estimate_pool_liquidity]
      split
      · norm_num
      · omega

/-- Claim C8 witness: the estimator evaluated on a successful read with a
positive sum and on a non-positive one. -/
theorem c8_estimate_pool_liquidity_witness :
    ((0 : ℤ) < 3 + 4 ∧ estimate_pool_liquidity (Except.ok (3, 4, 7)) = 3 + 4)
  ∧ ((-5 : ℤ) + 2 ≤ 0 ∧ estimate_pool_liquidity (Except.ok (-5, 2, 7)) = 10 ^ 24) :=
  ⟨⟨by decide, c8_estimate_pool_liquidity.1 3 4 7 (by decide)⟩,
   ⟨by decide, c8_estimate_pool_liquidity.2.1 (-5) 2 7 (by decide)⟩⟩

/-- Claim C9: compute_risk_level never raises a division error — with every
Python division made explicit it returns Ok of the total function on every
integer bundle (pool_liquidity 0 is replaced by 1 before it is used as a
denominator), and the DEX ratio r is 0 whenever the baseline volume is not
positive. -/
theorem c9_no_division_error :
    (∀ m : Metrics, compute_risk_levelE m = Except.ok (compute_risk_level m))
  ∧ (∀ m : Metrics, ¬ baseline_volume m > 0 → dex_r m = 0) :=
  ⟨computeE_eq_ok, fun m h => by
    unfold dex_r
    rw [if_neg h]⟩

/-- Claim C9 witness: the checked evaluation succeeds on the bundle with
negative liquidity (whose baseline is negative, forcing r = 0). -/
theorem c9_no_division_error_witness :
    compute_risk_levelE mNeg = Except.ok (compute_risk_level mNeg) ∧ dex_r mNeg = 0 :=
  ⟨c9_no_division_error.1 mNeg,
   c9_no_division_error.2 mNeg
     (by norm_num [baseline_volume, pool_liquidity_or1, mNeg])⟩

/-- Claim C10: a severity filter outside the four computed values is not
rejected — the endpoint evaluates and returns an empty list on any rows
(every computed severity fails the equality test), while the same example
rows do produce alerts when no filter is given. -/
theorem c10_bogus_severity :
    (∀ rows cfg, get_alerts rows cfg (some "bogus") = [])
  ∧ get_alerts c3Rows [] none ≠ [] :=
  ⟨alerts_bogus_empty, by decide⟩

end ChainMonitor
